import Mathlib

/-!
Verification of the safe-geonode geospatial engine
(`impact/engine/core.py`, `impact/storage/utilities.py`, and the
earthquake impact plugins) against its natural-language specification.

All numeric values are embedded as exact rationals (`ℚ`); Python floats
carry no overflow semantics relevant to the checked properties, and the
tolerance comparisons of `numpy.allclose` are pure arithmetic.
Fallible Python code (assert statements, raised exceptions) is embedded
in the `Except String` monad, with one fixed message string per distinct
assertion site (the Python messages interpolate data; the static part
identifies the assertion).
-/

namespace SafeGeonode

/-- Decidable equality of `Except` results, used to evaluate the embedded
fallible functions on concrete inputs. -/
instance instDecEqExcept {ε α : Type} [DecidableEq ε] [DecidableEq α] :
    DecidableEq (Except ε α) := fun x y =>
  match x, y with
  | Except.ok a, Except.ok b =>
    if h : a = b then Decidable.isTrue (by rw [h])
    else Decidable.isFalse (by simp [h])
  | Except.error a, Except.error b =>
    if h : a = b then Decidable.isTrue (by rw [h])
    else Decidable.isFalse (by simp [h])
  | Except.ok _, Except.error _ => Decidable.isFalse (by simp)
  | Except.error _, Except.ok _ => Decidable.isFalse (by simp)

/-! ## Bounding boxes (`impact/storage/utilities.py`) -/

/-- A bounding box `[west, south, east, north]`. -/
structure BBox where
  w : ℚ
  s : ℚ
  e : ℚ
  n : ℚ
deriving DecidableEq, Repr

/-- West-east extent of a box (`bbox[2] - bbox[0]`). -/
def extentX (b : BBox) : ℚ := b.e - b.w

/-- South-north extent of a box (`bbox[3] - bbox[1]`). -/
def extentY (b : BBox) : ℚ := b.n - b.s

/-- The accumulator `result = [-180, -90, 180, 90]` that
`bbox_intersection` starts from. -/
def worldBox : BBox := ⟨-180, -90, 180, 90⟩

/-- One step of the intersection loop: `result[i] = max(result[i], box[i])`
for west/south and `result[i] = min(result[i], box[i])` for east/north. -/
def interBox (acc b : BBox) : BBox :=
  ⟨max acc.w b.w, max acc.s b.s, min acc.e b.e, min acc.n b.n⟩

/-- Static part of `'Western boundary must be less than eastern. I got %s'`. -/
def westEastMsg : String := "Western boundary must be less than eastern."

/-- Static part of `'Southern boundary must be less than northern. I got %s'`. -/
def southNorthMsg : String := "Southern boundary must be less than northern."

/-- The `for a in args` loop of `bbox_intersection`: validate each box
(`W < E`, `S < N`) and fold it into the accumulator with max/min. -/
def bboxLoop : BBox → List BBox → Except String BBox
  | acc, [] => Except.ok acc
  | acc, b :: rest =>
    if b.w < b.e then
      if b.s < b.n then bboxLoop (interBox acc b) rest
      else Except.error southNorthMsg
    else Except.error westEastMsg

/-- `'Function bbox_intersection must take at least 2 arguments.'` -/
def arityMsg : String := "Function bbox_intersection must take at least 2 arguments."

/-- `bbox_intersection(*args)` from `impact/storage/utilities.py`:
asserts at least two boxes, starts from `[-180, -90, 180, 90]`,
folds each validated box in with max/min, and returns `None`
when the final box is empty or degenerate. -/
def bbox_intersection (args : List BBox) : Except String (Option BBox) :=
  if args.length > 1 then
    match bboxLoop worldBox args with
    | Except.error msg => Except.error msg
    | Except.ok r =>
        if r.w < r.e ∧ r.s < r.n then Except.ok (some r) else Except.ok none
  else Except.error arityMsg

/-- `minimal_bounding_box(bbox, min_res, eps=1.0e-6)` from
`impact/storage/utilities.py`: both extents are measured on the input box,
then each axis narrower than `min_res` is grown symmetrically by
`(min_res - extent)/2 + eps` on each side. -/
def minimal_bounding_box (b : BBox) (min_res eps : ℚ) : BBox :=
  let delta_x := b.e - b.w
  let delta_y := b.n - b.s
  let b1 :=
    if delta_x < min_res then
      let dx := (min_res - delta_x) / 2 + eps
      { b with w := b.w - dx, e := b.e + dx }
    else b
  if delta_y < min_res then
    let dy := (min_res - delta_y) / 2 + eps
    { b1 with s := b1.s - dy, n := b1.n + dy }
  else b1

/-- Default `eps` of `minimal_bounding_box`. -/
def defaultEps : ℚ := 1 / 1000000

/-! ## `numpy.allclose`

`numpy.isclose(a, b, rtol, atol)` is `|a - b| <= atol + rtol * |b|`;
`allclose` requires it elementwise (the arrays compared in
`check_data_integrity` have matching shapes; a shape mismatch never
compares equal). Defaults: `rtol = 1e-5`, `atol = 1e-8`. -/

/-- Executable absolute value on `ℚ` (kernel-reducible, unlike the
lattice-derived `|·|`). -/
def rabs (q : ℚ) : ℚ :=
  if q < 0 then -q else q

/-- `numpy.isclose` for scalars: `|a - b| <= atol + rtol * |b|`. -/
def isclose (rtol atol a b : ℚ) : Bool :=
  decide (rabs (a - b) ≤ atol + rtol * rabs b)

/-- `numpy.allclose` on flat arrays of equal shape. -/
def allclose (rtol atol : ℚ) (xs ys : List ℚ) : Bool :=
  decide (xs.length = ys.length) &&
    (List.zip xs ys).all fun p => isclose rtol atol p.1 p.2

/-- The pairs compared by `numpy.allclose` on two coordinate arrays of
shapes `(M, 2)` and `(N, 2)` after broadcasting along the leading axis:
equal lengths compare pairwise, and a length-1 array is broadcast
against every point of the other. (Only called under the shape guard of
`allclosePts`.) -/
def broadcastPairs {α : Type} : List α → List α → List (α × α)
  | xs, ys =>
    if xs.length = ys.length then List.zip xs ys
    else
      match xs, ys with
      | [x], ys => ys.map fun y => (x, y)
      | xs, [y] => xs.map fun x => (x, y)
      | _, _ => []

/-- `numpy.allclose` on arrays of coordinate pairs, with numpy's
broadcasting along the leading axis: lengths must be equal or one of
them 1, otherwise numpy raises `ValueError` (modelled as `none`). -/
def allclosePts (rtol atol : ℚ) (xs ys : List (ℚ × ℚ)) : Option Bool :=
  if xs.length = ys.length ∨ xs.length = 1 ∨ ys.length = 1 then
    some ((broadcastPairs xs ys).all fun p =>
      isclose rtol atol p.1.1 p.2.1 && isclose rtol atol p.1.2 p.2.2)
  else none

/-- numpy default `rtol`. -/
def rtolDefault : ℚ := 1 / 100000

/-- numpy default `atol`. -/
def atolDefault : ℚ := 1 / 100000000

/-! ## Layers and `check_data_integrity` (`impact/engine/core.py`) -/

/-- A layer is raster or vector. -/
inductive LayerKind where
  | raster
  | vector
deriving DecidableEq, Repr

/-- The observable state of a `Raster`/`Vector` layer object as read by
`check_data_integrity`: projection string, the 6-component geotransform
and `rows`/`columns` (rasters), and the point geometry (vectors). -/
structure Layer where
  kind : LayerKind
  projection : String
  geotransform : List ℚ
  geometry : List (ℚ × ℚ)
  rows : ℕ
  columns : ℕ
  name : String
deriving DecidableEq, Repr

/-- Modelled from the spec: `impact/storage/projection.py` is not in the
sources; per the spec, projections compare by string/definition equality
and the enforced default is WGS84 geographic. -/
def DEFAULT_PROJECTION : String := "+proj=longlat +datum=WGS84 +no_defs"

/-- Static part of `'Projections in input layer %s is not as expected'`. -/
def projectionMsg : String := "Projections in input layer is not as expected"

/-- Static part of `'Geotransforms in input raster layers are different'`. -/
def geotransformMsg : String := "Geotransforms in input raster layers are different"

/-- Static part of `'Coordinates in input vector layers are different'`. -/
def coordinatesMsg : String := "Coordinates in input vector layers are different"

/-- `'There are no data points to interpolate to...'`. -/
def noDataMsg : String := "There are no data points to interpolate to"

/-- Static part of numpy's `ValueError` for incompatible shapes, which
propagates out of the coordinate comparison when the two geometry arrays
cannot be broadcast together. -/
def broadcastMsg : String := "operands could not be broadcast together"

/-- Static part of the rows branch of `'Rasters are not aligned!'`. -/
def rowsMsg : String := "Rasters are not aligned! (rows)"

/-- Static part of the columns branch of `'Rasters are not aligned!'`. -/
def colsMsg : String := "Rasters are not aligned! (columns)"

/-- The first loop of `check_data_integrity`, carrying the reference
geotransform of the first raster and reference coordinates of the first
vector layer. Per layer, in Python's order: assert the projection equals
the enforced default; for rasters compare geotransforms with
`numpy.allclose(..., rtol=1.0e-1)` (default `atol`); for vectors compare
coordinates with default-tolerance `numpy.allclose` and then assert the
layer is nonempty. -/
def integrityLoop :
    Option (List ℚ) → Option (List (ℚ × ℚ)) → List Layer → Except String Unit
  | _, _, [] => Except.ok ()
  | gt?, coord?, l :: rest =>
    if l.projection = DEFAULT_PROJECTION then
      match l.kind with
      | LayerKind.raster =>
        match gt? with
        | none => integrityLoop (some l.geotransform) coord? rest
        | some g =>
          if allclose (1 / 10) atolDefault g l.geotransform then
            integrityLoop (some g) coord? rest
          else Except.error geotransformMsg
      | LayerKind.vector =>
        match coord? with
        | none =>
          if l.geometry.length > 0 then integrityLoop gt? (some l.geometry) rest
          else Except.error noDataMsg
        | some c =>
          match allclosePts rtolDefault atolDefault c l.geometry with
          | none => Except.error broadcastMsg
          | some close =>
            if close then
              if l.geometry.length > 0 then integrityLoop gt? (some c) rest
              else Except.error noDataMsg
            else Except.error coordinatesMsg
    else Except.error projectionMsg

/-- `sys.maxint`, the initial value of the minimum-dimension scan. -/
def SYS_MAXINT : ℕ := 2 ^ 63 - 1

/-- The final loop of `check_data_integrity`: every raster layer must have
exactly the minimum `rows` and `columns` found among the raster layers. -/
def alignLoop (M N : ℕ) : List Layer → Except String Unit
  | [] => Except.ok ()
  | l :: rest =>
    match l.kind with
    | LayerKind.raster =>
      if l.rows = M then
        if l.columns = N then alignLoop M N rest
        else Except.error colsMsg
      else Except.error rowsMsg
    | LayerKind.vector => alignLoop M N rest

/-- `check_data_integrity(layer_files)` from `impact/engine/core.py`. -/
def check_data_integrity (layers : List Layer) : Except String Unit :=
  match integrityLoop none none layers with
  | Except.error msg => Except.error msg
  | Except.ok _ =>
    let M := layers.foldl
      (fun m l => match l.kind with
                  | LayerKind.raster => min m l.rows
                  | LayerKind.vector => m) SYS_MAXINT
    let N := layers.foldl
      (fun m l => match l.kind with
                  | LayerKind.raster => min m l.columns
                  | LayerKind.vector => m) SYS_MAXINT
    alignLoop M N layers

/-! ## `get_resolutions` (`impact/engine/core.py`) -/

/-- The part of a layer's metadata dictionary read by `get_resolutions`. -/
structure Metadata where
  layer_type : String
  resolution : ℚ × ℚ
deriving DecidableEq, Repr

/-- `get_resolutions(haz_metadata, exp_metadata)`: a layer's resolution is
used only when its `layer_type` is `'raster'`; with two rasters the result
is the elementwise minimum, otherwise `None` (native resolution). -/
def get_resolutions (haz exp : Metadata) : Option (ℚ × ℚ) :=
  let haz_res : Option (ℚ × ℚ) :=
    if haz.layer_type = "raster" then some haz.resolution else none
  let exp_res : Option (ℚ × ℚ) :=
    if exp.layer_type = "raster" then some exp.resolution else none
  match haz_res, exp_res with
  | some h, some e => some (min h.1 e.1, min h.2 e.2)
  | _, _ => none

/-! ## `calculate_impact` (`impact/engine/core.py`)

An impact-function plugin exposes `run(layers)` and
`generate_style(layer)`; either may raise, embedded as `Except String`.
File I/O (`unique_filename`, `write_to_file`, writing the style) is
outside the shallow embedding; the observable outcome of
`calculate_impact` is the chosen output extension, the style string, and
any propagated error. -/

/-- An instantiated impact-function plugin. -/
structure Plugin where
  pname : String
  run : List Layer → Except String Layer
  generate_style : Layer → Except String String

/-- `calculate_impact(layers, impact_fcn)`: check data integrity, call the
plugin's `run`, pick `.tif`/`.shp` from the result kind, call
`generate_style`. There is no `try`/`except` anywhere in the function:
every error propagates to the caller exactly as raised. -/
def calculate_impact (layers : List Layer) (p : Plugin) :
    Except String (String × String) :=
  match check_data_integrity layers with
  | Except.error msg => Except.error msg
  | Except.ok _ =>
    match p.run layers with
    | Except.error msg => Except.error msg
    | Except.ok F =>
      let extension := match F.kind with
        | LayerKind.raster => ".tif"
        | LayerKind.vector => ".shp"
      match p.generate_style F with
      | Except.error msg => Except.error msg
      | Except.ok style => Except.ok (extension, style)

/-! ## Threshold classification
(`impact/plugins/earthquake/BNPB_earthquake_guidelines.py`) -/

/-- `damage_parameters = {'URM': [6, 7], 'RM': [6, 8]}`. -/
def damage_parameters : String → Option (ℚ × ℚ)
  | "URM" => some (6, 7)
  | "RM" => some (6, 8)
  | _ => none

/-- The per-feature damage classification of
`EarthquakeGuidelinesFunction.run`:
`if mmi < lo: 1 elif lo <= mmi < hi: 2 else: 3`. -/
def classifyDamage (lo hi mmi : ℚ) : ℕ :=
  if mmi < lo then 1
  else if lo ≤ mmi ∧ mmi < hi then 2
  else 3

/-- `EarthquakeGuidelinesFunction.target_field`. -/
def target_field : String := "DMGLEVEL"

/-! ## Per-feature attribute dictionaries

Python dicts preserve insertion order and overwrite in place on
reassignment; lookup-relevant behaviour is captured by an ordered
association list with overwrite-at-first-occurrence insertion. -/

/-- `d[k] = v` on a Python dict: overwrite the existing entry in place,
else append. -/
def dictInsert {V : Type} : List (String × V) → String → V → List (String × V)
  | [], k, v => [(k, v)]
  | p :: rest, k, v =>
    if p.1 = k then (k, v) :: rest else p :: dictInsert rest k v

/-- `d[k]` on a Python dict (as an `Option`; keys occur at most once, so
the first match is the value). -/
def dictGet {V : Type} : List (String × V) → String → Option V
  | [], _ => none
  | p :: rest, k => if p.1 = k then some p.2 else dictGet rest k

/-- The `result_dict` construction shared by
`EarthquakeGuidelinesFunction.run` and
`PadangEarthquakeBuildingDamageFunction.run`:
`result_dict = {target: computed, 'MMI': mmi}` followed by
`for key in attributes: result_dict[key] = E.get_data(key, i)`. -/
def buildResultDict {V : Type} (target : String) (computed mmi : V)
    (attrs : List (String × V)) : List (String × V) :=
  attrs.foldl (fun d kv => dictInsert d kv.1 kv.2)
    (dictInsert (dictInsert [] target computed) "MMI" mmi)

/-! ## Concrete instances used in scenario and counterexample theorems -/

/-- A vector layer with a single point at the origin. -/
def vecLayerA : Layer :=
  ⟨LayerKind.vector, DEFAULT_PROJECTION, [], [(0, 0)], 0, 0, "A"⟩

/-- A vector layer whose single point differs from `vecLayerA` by
`1e-9` degrees in longitude. -/
def vecLayerB : Layer :=
  ⟨LayerKind.vector, DEFAULT_PROJECTION, [], [(1 / 1000000000, 0)], 0, 0, "B"⟩

/-- A vector layer with two points, each within numpy's default
tolerances of `vecLayerA`'s single point; against `vecLayerA` the shapes
broadcast as `(1, 2)` vs `(2, 2)`. -/
def vecLayerC : Layer :=
  ⟨LayerKind.vector, DEFAULT_PROJECTION, [],
   [(0, 0), (1 / 1000000000, 0)], 0, 0, "C"⟩

/-- A raster layer with a tiny origin-x geotransform component `2e-9`. -/
def rasTinyA : Layer :=
  ⟨LayerKind.raster, DEFAULT_PROJECTION,
   [2 / 1000000000, 1, 0, 0, 0, -1], [], 3, 3, "tinyA"⟩

/-- A raster layer whose origin-x `1e-9` differs from `rasTinyA`'s by
100% in relative terms. -/
def rasTinyB : Layer :=
  ⟨LayerKind.raster, DEFAULT_PROJECTION,
   [1 / 1000000000, 1, 0, 0, 0, -1], [], 3, 3, "tinyB"⟩

/-- A reference raster layer with unit pixel width. -/
def rasRef : Layer :=
  ⟨LayerKind.raster, DEFAULT_PROJECTION, [0, 1, 0, 0, 0, -1], [], 3, 3, "ref"⟩

/-- Like `rasRef` but with pixel width larger by 15%. -/
def rasOff15 : Layer :=
  ⟨LayerKind.raster, DEFAULT_PROJECTION,
   [0, 115 / 100, 0, 0, 0, -1], [], 3, 3, "off15"⟩

/-- Like `rasRef` but with pixel width larger by 5%. -/
def rasOff05 : Layer :=
  ⟨LayerKind.raster, DEFAULT_PROJECTION,
   [0, 105 / 100, 0, 0, 0, -1], [], 3, 3, "off05"⟩

/-- A plugin whose `run` raises an error message that does not mention the
plugin's name. -/
def failingPlugin : Plugin :=
  ⟨"TestPlugin", fun _ => Except.error "boom",
   fun _ => Except.error "style boom"⟩

/-! ## Helper lemmas -/

/-- `rabs` agrees with the absolute value. -/
theorem rabs_eq_abs (q : ℚ) : rabs q = |q| := by
  unfold rabs
  by_cases h : q < 0
  · simp [h, abs_of_neg h]
  · simp [h, abs_of_nonneg (not_lt.mp h)]

/-- Every breakpoint pair of `damage_parameters` is ordered. -/
theorem damage_parameters_le (c : String) (lo hi : ℚ)
    (h : damage_parameters c = some (lo, hi)) : lo ≤ hi := by
  unfold damage_parameters at h
  split at h <;> simp_all <;> norm_num [← h.1, ← h.2]

/-! ## C1 -/

/-- C1: with breakpoints `[lo, hi]` taken from `damage_parameters` for the
feature's building class, the classifier of
`EarthquakeGuidelinesFunction.run` assigns class 1 when the interpolated
value is `< lo`, class 2 when `lo ≤ value < hi`, and class 3 when
`value ≥ hi`; in particular with breakpoints `[6, 7]`, value `5.999` is
class 1, `6.0` and `6.999` are class 2, and `7.0` is class 3. -/
theorem C1_threshold_classification :
    (∀ c lo hi, damage_parameters c = some (lo, hi) →
      ∀ mmi : ℚ,
        (mmi < lo → classifyDamage lo hi mmi = 1) ∧
        (lo ≤ mmi → mmi < hi → classifyDamage lo hi mmi = 2) ∧
        (hi ≤ mmi → classifyDamage lo hi mmi = 3)) ∧
    classifyDamage 6 7 (5999 / 1000) = 1 ∧
    classifyDamage 6 7 6 = 2 ∧
    classifyDamage 6 7 (6999 / 1000) = 2 ∧
    classifyDamage 6 7 7 = 3 := by
  refine ⟨?_, by norm_num [classifyDamage], by norm_num [classifyDamage],
    by norm_num [classifyDamage], by norm_num [classifyDamage]⟩
  intro c lo hi h mmi
  have hlohi : lo ≤ hi := damage_parameters_le c lo hi h
  unfold classifyDamage
  refine ⟨fun hlt => by simp [hlt], fun h1 h2 => ?_, fun hge => ?_⟩
  · rw [if_neg (not_lt.mpr h1), if_pos ⟨h1, h2⟩]
  · have h1 : ¬ mmi < lo := not_lt.mpr (le_trans hlohi hge)
    have h2 : ¬ (lo ≤ mmi ∧ mmi < hi) := fun hc => absurd hc.2 (not_lt.mpr hge)
    rw [if_neg h1, if_neg h2]

/-- Witness for C1 at building class `"URM"` and value `5`. -/
theorem C1_threshold_classification_witness :
    damage_parameters "URM" = some (6, 7) ∧ classifyDamage 6 7 5 = 1 :=
  ⟨rfl, (C1_threshold_classification.1 "URM" 6 7 rfl 5).1 (by norm_num)⟩

/-! ## C6 -/

/-- C6: `get_resolutions` returns `none` whenever either metadata is
vector-typed, and the elementwise minimum of the two native resolutions
when both are raster-typed; in particular hazard `(0.01, 0.01)` with
exposure `(0.005, 0.02)` yields `(0.005, 0.01)`. -/
theorem C6_get_resolutions :
    (∀ hz ex : Metadata,
      (hz.layer_type = "vector" ∨ ex.layer_type = "vector") →
      get_resolutions hz ex = none) ∧
    (∀ hz ex : Metadata,
      hz.layer_type = "raster" → ex.layer_type = "raster" →
      get_resolutions hz ex =
        some (min hz.resolution.1 ex.resolution.1,
              min hz.resolution.2 ex.resolution.2)) ∧
    get_resolutions ⟨"raster", (1 / 100, 1 / 100)⟩
        ⟨"raster", (1 / 200, 1 / 50)⟩ = some (1 / 200, 1 / 100) := by
  refine ⟨?_, ?_, ?_⟩
  · intro hz ex hv
    unfold get_resolutions
    rcases hv with hv | hv <;> rw [hv] <;> simp
  · intro hz ex h1 h2
    unfold get_resolutions
    rw [h1, h2]
    simp
  · unfold get_resolutions
    norm_num [min_def]

/-- Witness for C6: a vector exposure layer forces native resolution. -/
theorem C6_get_resolutions_witness :
    get_resolutions ⟨"raster", (1 / 100, 1 / 100)⟩ ⟨"vector", (0, 0)⟩ =
      none :=
  C6_get_resolutions.1 ⟨"raster", (1 / 100, 1 / 100)⟩ ⟨"vector", (0, 0)⟩
    (Or.inr rfl)

/-! ## `minimal_bounding_box` lemmas, C8 and C5 -/

/-- Closed form of `minimal_bounding_box`: each side moves outward by the
grow amount of its axis exactly when that axis is narrower than
`min_res`. -/
theorem mbb_spec (b : BBox) (min_res eps : ℚ) :
    minimal_bounding_box b min_res eps =
      ⟨if b.e - b.w < min_res
          then b.w - ((min_res - (b.e - b.w)) / 2 + eps) else b.w,
       if b.n - b.s < min_res
          then b.s - ((min_res - (b.n - b.s)) / 2 + eps) else b.s,
       if b.e - b.w < min_res
          then b.e + ((min_res - (b.e - b.w)) / 2 + eps) else b.e,
       if b.n - b.s < min_res
          then b.n + ((min_res - (b.n - b.s)) / 2 + eps) else b.n⟩ := by
  unfold minimal_bounding_box
  dsimp only
  split_ifs <;> rfl

/-- Both extents of the adjusted box meet the minimum when `0 ≤ eps`. -/
theorem mbb_extent (b : BBox) (min_res eps : ℚ) (heps : 0 ≤ eps) :
    min_res ≤ extentX (minimal_bounding_box b min_res eps) ∧
    min_res ≤ extentY (minimal_bounding_box b min_res eps) := by
  rw [mbb_spec]
  unfold extentX extentY
  dsimp only
  constructor <;> split_ifs with h <;> linarith

/-- A box already meeting the minimum on both axes is returned
unchanged. -/
theorem mbb_unchanged (b : BBox) (min_res eps : ℚ)
    (hx : min_res ≤ extentX b) (hy : min_res ≤ extentY b) :
    minimal_bounding_box b min_res eps = b := by
  rw [mbb_spec]
  unfold extentX at hx
  unfold extentY at hy
  rw [if_neg (not_lt.mpr hx), if_neg (not_lt.mpr hy),
      if_neg (not_lt.mpr hx), if_neg (not_lt.mpr hy)]

/-! ## C8 -/

/-- C8: for every box and resolution (and any nonnegative `eps`, which
covers the default `1e-6`), `minimal_bounding_box` returns a box whose
extents are at least `min_res` on both axes, returns a box already
meeting the minimum unchanged, and is idempotent. -/
theorem C8_minimal_bbox_algebra (b : BBox) (min_res eps : ℚ)
    (heps : 0 ≤ eps) :
    (min_res ≤ extentX (minimal_bounding_box b min_res eps) ∧
     min_res ≤ extentY (minimal_bounding_box b min_res eps)) ∧
    (min_res ≤ extentX b → min_res ≤ extentY b →
      minimal_bounding_box b min_res eps = b) ∧
    minimal_bounding_box (minimal_bounding_box b min_res eps) min_res eps =
      minimal_bounding_box b min_res eps := by
  refine ⟨mbb_extent b min_res eps heps,
    fun hx hy => mbb_unchanged b min_res eps hx hy, ?_⟩
  exact mbb_unchanged _ min_res eps (mbb_extent b min_res eps heps).1
    (mbb_extent b min_res eps heps).2

/-- Witness for C8 at the unit box, `min_res = 2`, default `eps`. -/
theorem C8_minimal_bbox_algebra_witness :
    (2 ≤ extentX (minimal_bounding_box ⟨0, 0, 1, 1⟩ 2 defaultEps) ∧
     2 ≤ extentY (minimal_bounding_box ⟨0, 0, 1, 1⟩ 2 defaultEps)) ∧
    minimal_bounding_box (minimal_bounding_box ⟨0, 0, 1, 1⟩ 2 defaultEps)
        2 defaultEps =
      minimal_bounding_box ⟨0, 0, 1, 1⟩ 2 defaultEps :=
  ⟨(C8_minimal_bbox_algebra ⟨0, 0, 1, 1⟩ 2 defaultEps
      (by norm_num [defaultEps])).1,
   (C8_minimal_bbox_algebra ⟨0, 0, 1, 1⟩ 2 defaultEps
      (by norm_num [defaultEps])).2.2⟩

/-! ## C5 -/

/-- C5 counterexample: a box whose extent already equals the minimum
resolution exactly is returned unchanged, so the returned extent does NOT
strictly exceed the minimum, contradicting the claim's "the returned
box's extent strictly exceeds r on both axes". -/
theorem C5_counterexample :
    minimal_bounding_box ⟨0, 0, 1, 1⟩ 1 defaultEps = ⟨0, 0, 1, 1⟩ ∧
    ¬ 1 < extentX (minimal_bounding_box ⟨0, 0, 1, 1⟩ 1 defaultEps) ∧
    ¬ 1 < extentY (minimal_bounding_box ⟨0, 0, 1, 1⟩ 1 defaultEps) := by
  refine ⟨?_, ?_, ?_⟩ <;>
    norm_num [minimal_bounding_box, extentX, extentY]

/-- C5 (amended): each axis narrower than `min_res` is grown symmetrically
by `(min_res - extent)/2 + eps` on each side and its new extent strictly
exceeds `min_res` (for positive `eps`); an axis already meeting the
minimum keeps its bounds exactly; no side ever moves inward. The strict
excess holds only for axes that were actually grown. -/
theorem C5_minimal_bbox_grow (b : BBox) (min_res eps : ℚ)
    (heps : 0 < eps) :
    (extentX b < min_res →
      (minimal_bounding_box b min_res eps).w =
        b.w - ((min_res - extentX b) / 2 + eps) ∧
      (minimal_bounding_box b min_res eps).e =
        b.e + ((min_res - extentX b) / 2 + eps) ∧
      min_res < extentX (minimal_bounding_box b min_res eps)) ∧
    (min_res ≤ extentX b →
      (minimal_bounding_box b min_res eps).w = b.w ∧
      (minimal_bounding_box b min_res eps).e = b.e) ∧
    (extentY b < min_res →
      (minimal_bounding_box b min_res eps).s =
        b.s - ((min_res - extentY b) / 2 + eps) ∧
      (minimal_bounding_box b min_res eps).n =
        b.n + ((min_res - extentY b) / 2 + eps) ∧
      min_res < extentY (minimal_bounding_box b min_res eps)) ∧
    (min_res ≤ extentY b →
      (minimal_bounding_box b min_res eps).s = b.s ∧
      (minimal_bounding_box b min_res eps).n = b.n) ∧
    ((minimal_bounding_box b min_res eps).w ≤ b.w ∧
     b.e ≤ (minimal_bounding_box b min_res eps).e ∧
     (minimal_bounding_box b min_res eps).s ≤ b.s ∧
     b.n ≤ (minimal_bounding_box b min_res eps).n) := by
  rw [mbb_spec]
  unfold extentX extentY
  dsimp only
  refine ⟨fun hx => ?_, fun hx => ?_, fun hy => ?_, fun hy => ?_, ?_⟩
  · rw [if_pos hx, if_pos hx]
    refine ⟨rfl, rfl, by linarith⟩
  · rw [if_neg (not_lt.mpr hx), if_neg (not_lt.mpr hx)]
    exact ⟨rfl, rfl⟩
  · rw [if_pos hy, if_pos hy]
    refine ⟨rfl, rfl, by linarith⟩
  · rw [if_neg (not_lt.mpr hy), if_neg (not_lt.mpr hy)]
    exact ⟨rfl, rfl⟩
  · refine ⟨?_, ?_, ?_, ?_⟩ <;> split_ifs with h <;> linarith

/-- Witness for C5 (amended) at the degenerate box `[0,0] × [0,0]`,
`min_res = 1`, default `eps`. -/
theorem C5_minimal_bbox_grow_witness :
    extentX (⟨0, 0, 0, 0⟩ : BBox) < 1 ∧
    (minimal_bounding_box ⟨0, 0, 0, 0⟩ 1 defaultEps).w =
      (0 : ℚ) - ((1 - extentX ⟨0, 0, 0, 0⟩) / 2 + defaultEps) ∧
    (minimal_bounding_box ⟨0, 0, 0, 0⟩ 1 defaultEps).e =
      (0 : ℚ) + ((1 - extentX ⟨0, 0, 0, 0⟩) / 2 + defaultEps) ∧
    1 < extentX (minimal_bounding_box ⟨0, 0, 0, 0⟩ 1 defaultEps) :=
  ⟨by norm_num [extentX],
   (C5_minimal_bbox_grow ⟨0, 0, 0, 0⟩ 1 defaultEps
      (by norm_num [defaultEps])).1 (by norm_num [extentX])⟩

/-! ## `bbox_intersection` lemmas, C4 and C9 -/

/-- On a list of valid boxes the loop succeeds and computes the fold of
`interBox`. -/
theorem bboxLoop_ok_of_valid (bs : List BBox) :
    ∀ acc : BBox, (∀ bx ∈ bs, bx.w < bx.e ∧ bx.s < bx.n) →
      bboxLoop acc bs = Except.ok (bs.foldl interBox acc) := by
  induction bs with
  | nil => intro acc _; rfl
  | cons b rest ih =>
    intro acc h
    have hb := h b (List.mem_cons_self _ _)
    unfold bboxLoop
    rw [if_pos hb.1, if_pos hb.2, List.foldl_cons]
    exact ih (interBox acc b) fun bx hx => h bx (List.mem_cons_of_mem _ hx)

/-- If some box in the list is invalid, the loop raises a validation
error. -/
theorem bboxLoop_error_of_invalid (bs : List BBox) :
    ∀ acc : BBox, (∃ bx ∈ bs, bx.e ≤ bx.w ∨ bx.n ≤ bx.s) →
      ∃ msg, bboxLoop acc bs = Except.error msg := by
  induction bs with
  | nil =>
    intro acc h
    rcases h with ⟨bx, hmem, _⟩
    exact absurd hmem (List.not_mem_nil bx)
  | cons b rest ih =>
    intro acc h
    unfold bboxLoop
    by_cases h1 : b.w < b.e
    · rw [if_pos h1]
      by_cases h2 : b.s < b.n
      · rw [if_pos h2]
        apply ih
        rcases h with ⟨bx, hmem, hbad⟩
        rcases List.mem_cons.mp hmem with rfl | hmem'
        · exfalso; rcases hbad with hb | hb <;> linarith
        · exact ⟨bx, hmem', hbad⟩
      · rw [if_neg h2]; exact ⟨southNorthMsg, rfl⟩
    · rw [if_neg h1]; exact ⟨westEastMsg, rfl⟩

/-- Componentwise closed form of the `interBox` fold: wests and souths
are folded with `max`, easts and norths with `min`. -/
theorem foldl_interBox_spec (bs : List BBox) :
    ∀ acc : BBox,
      bs.foldl interBox acc =
        ⟨(bs.map BBox.w).foldl max acc.w, (bs.map BBox.s).foldl max acc.s,
         (bs.map BBox.e).foldl min acc.e,
         (bs.map BBox.n).foldl min acc.n⟩ := by
  induction bs with
  | nil => intro acc; rfl
  | cons b rest ih =>
    intro acc
    rw [List.foldl_cons, List.map_cons, List.map_cons, List.map_cons,
        List.map_cons, List.foldl_cons, List.foldl_cons, List.foldl_cons,
        List.foldl_cons]
    exact ih (interBox acc b)

/-- A successful loop run equals the `interBox` fold. -/
theorem bboxLoop_ok_eq_foldl (bs : List BBox) :
    ∀ acc res : BBox, bboxLoop acc bs = Except.ok res →
      res = bs.foldl interBox acc := by
  induction bs with
  | nil =>
    intro acc res h
    unfold bboxLoop at h
    cases h
    rfl
  | cons b rest ih =>
    intro acc res h
    unfold bboxLoop at h
    split_ifs at h
    exact ih (interBox acc b) res h

/-- The loop never widens the accumulator box. -/
theorem bboxLoop_mono (bs : List BBox) :
    ∀ acc res : BBox, bboxLoop acc bs = Except.ok res →
      acc.w ≤ res.w ∧ acc.s ≤ res.s ∧ res.e ≤ acc.e ∧ res.n ≤ acc.n := by
  induction bs with
  | nil =>
    intro acc res h
    unfold bboxLoop at h
    cases h
    exact ⟨le_refl _, le_refl _, le_refl _, le_refl _⟩
  | cons b rest ih =>
    intro acc res h
    unfold bboxLoop at h
    split_ifs at h
    have hrec := ih (interBox acc b) res h
    unfold interBox at hrec
    dsimp only at hrec
    exact ⟨le_trans (le_max_left _ _) hrec.1,
           le_trans (le_max_left _ _) hrec.2.1,
           le_trans hrec.2.2.1 (min_le_left _ _),
           le_trans hrec.2.2.2 (min_le_left _ _)⟩

/-! ## C4 -/

/-- C4 counterexample: both input boxes are valid (`W < E`, `S < N`) and
share west `-200`, yet `bbox_intersection` returns west `-180` (the world
box bound) rather than `max(-200, -200) = -200`, refuting "west ... is
the maximum of the inputs' wests". -/
theorem C4_counterexample :
    ((-200 : ℚ) < 180 ∧ (-90 : ℚ) < 90) ∧
    bbox_intersection [⟨-200, -90, 180, 90⟩, ⟨-200, -90, 180, 90⟩] =
      Except.ok (some ⟨-180, -90, 180, 90⟩) ∧
    max (-200 : ℚ) (-200) = -200 ∧ (-200 : ℚ) ≠ -180 := by
  refine ⟨⟨by norm_num, by norm_num⟩, ?_, by norm_num, by norm_num⟩
  norm_num [bbox_intersection, bboxLoop, interBox, worldBox, max_def,
    min_def]

/-- C4 (amended): with at least two boxes, `bbox_intersection` validates
every input (`W < E`, `S < N`) and errors if any is invalid; on valid
inputs the result folds the world box `[-180, -90, 180, 90]` in with the
inputs — west/south are the `max` of the inputs' wests/souths and
`-180`/`-90`, east/north the `min` of the inputs' easts/norths and
`180`/`90` — and is `none` exactly when that box is empty or
degenerate. -/
theorem C4_bbox_intersection (boxes : List BBox)
    (hlen : 1 < boxes.length) :
    ((∀ bx ∈ boxes, bx.w < bx.e ∧ bx.s < bx.n) →
      bbox_intersection boxes =
        Except.ok
          (if (boxes.map BBox.w).foldl max (-180) <
                (boxes.map BBox.e).foldl min 180 ∧
              (boxes.map BBox.s).foldl max (-90) <
                (boxes.map BBox.n).foldl min 90 then
            some ⟨(boxes.map BBox.w).foldl max (-180),
                  (boxes.map BBox.s).foldl max (-90),
                  (boxes.map BBox.e).foldl min 180,
                  (boxes.map BBox.n).foldl min 90⟩
          else none)) ∧
    ((∃ bx ∈ boxes, bx.e ≤ bx.w ∨ bx.n ≤ bx.s) →
      ∃ msg, bbox_intersection boxes = Except.error msg) := by
  constructor
  · intro hvalid
    unfold bbox_intersection
    rw [if_pos hlen, bboxLoop_ok_of_valid boxes worldBox hvalid,
        foldl_interBox_spec boxes worldBox]
    simp only [worldBox]
    split_ifs <;> rfl
  · intro hbad
    obtain ⟨msg, hmsg⟩ := bboxLoop_error_of_invalid boxes worldBox hbad
    unfold bbox_intersection
    rw [if_pos hlen, hmsg]
    exact ⟨msg, rfl⟩

/-- Witness for C4 (amended) on two concrete valid boxes. -/
theorem C4_bbox_intersection_witness :
    bbox_intersection [⟨0, 0, 10, 10⟩, ⟨5, 5, 20, 20⟩] =
      Except.ok
        (if ([⟨0, 0, 10, 10⟩, ⟨5, 5, 20, 20⟩].map BBox.w).foldl
              max (-180) <
            ([(⟨0, 0, 10, 10⟩ : BBox), ⟨5, 5, 20, 20⟩].map BBox.e).foldl
              min 180 ∧
            ([(⟨0, 0, 10, 10⟩ : BBox), ⟨5, 5, 20, 20⟩].map BBox.s).foldl
              max (-90) <
            ([(⟨0, 0, 10, 10⟩ : BBox), ⟨5, 5, 20, 20⟩].map BBox.n).foldl
              min 90 then
          some ⟨([(⟨0, 0, 10, 10⟩ : BBox), ⟨5, 5, 20, 20⟩].map
                   BBox.w).foldl max (-180),
                ([(⟨0, 0, 10, 10⟩ : BBox), ⟨5, 5, 20, 20⟩].map
                   BBox.s).foldl max (-90),
                ([(⟨0, 0, 10, 10⟩ : BBox), ⟨5, 5, 20, 20⟩].map
                   BBox.e).foldl min 180,
                ([(⟨0, 0, 10, 10⟩ : BBox), ⟨5, 5, 20, 20⟩].map
                   BBox.n).foldl min 90⟩
        else none) :=
  (C4_bbox_intersection [⟨0, 0, 10, 10⟩, ⟨5, 5, 20, 20⟩]
      (by norm_num)).1
    (by intro bx hbx; fin_cases hbx <;> constructor <;> norm_num)

/-! ## C9 -/

/-- C9: every non-`none` result of `bbox_intersection` lies inside the
world box `[-180, -90, 180, 90]`, because the accumulator starts at the
world box; the returned box is exactly the `interBox` fold of all inputs
over the world box. -/
theorem C9_world_box_invariant (boxes : List BBox) (r : BBox)
    (h : bbox_intersection boxes = Except.ok (some r)) :
    (-180 ≤ r.w ∧ -90 ≤ r.s ∧ r.e ≤ 180 ∧ r.n ≤ 90) ∧
    r = boxes.foldl interBox worldBox := by
  unfold bbox_intersection at h
  split_ifs at h with hlen
  cases hb : bboxLoop worldBox boxes with
  | error msg => rw [hb] at h; simp at h
  | ok res =>
    rw [hb] at h
    dsimp only at h
    split_ifs at h with hcond
    · have hr : res = r := by
        injection h with h1
        injection h1
      subst hr
      have hmono := bboxLoop_mono boxes worldBox res hb
      unfold worldBox at hmono
      dsimp only at hmono
      exact ⟨hmono, bboxLoop_ok_eq_foldl boxes worldBox res hb⟩
    · simp at h

/-- Witness for C9: two boxes overflowing the world box on every side
still intersect to a box inside the world box. -/
theorem C9_world_box_invariant_witness :
    (-180 ≤ (⟨-180, -90, 180, 90⟩ : BBox).w ∧
     -90 ≤ (⟨-180, -90, 180, 90⟩ : BBox).s ∧
     (⟨-180, -90, 180, 90⟩ : BBox).e ≤ 180 ∧
     (⟨-180, -90, 180, 90⟩ : BBox).n ≤ 90) ∧
    (⟨-180, -90, 180, 90⟩ : BBox) =
      [(⟨-360, -95, 360, 95⟩ : BBox), ⟨-360, -95, 360, 95⟩].foldl interBox
        worldBox :=
  C9_world_box_invariant [⟨-360, -95, 360, 95⟩, ⟨-360, -95, 360, 95⟩]
    ⟨-180, -90, 180, 90⟩
    (by norm_num [bbox_intersection, bboxLoop, interBox, worldBox,
      max_def, min_def])

/-! ## `numpy.allclose` characterization, C2 -/

/-- `allclosePts` returns `some true` exactly when the lengths broadcast
(equal, or one of them 1) and every broadcast coordinate pair is within
`atol + rtol * |reference|`. -/
theorem allclosePts_iff (rtol atol : ℚ) (xs ys : List (ℚ × ℚ)) :
    allclosePts rtol atol xs ys = some true ↔
      ((xs.length = ys.length ∨ xs.length = 1 ∨ ys.length = 1) ∧
        ∀ p ∈ broadcastPairs xs ys,
          |p.1.1 - p.2.1| ≤ atol + rtol * |p.2.1| ∧
          |p.1.2 - p.2.2| ≤ atol + rtol * |p.2.2|) := by
  unfold allclosePts isclose
  split_ifs with hcompat
  · simp only [Option.some.injEq, List.all_eq_true, Bool.and_eq_true,
      decide_eq_true_eq]
    simp [rabs_eq_abs, hcompat]
  · simp [hcompat]

/-- C2 counterexample: two vector layers whose single points differ by
`1e-9` degrees in longitude — an exact-match check would reject them —
pass `check_data_integrity`, because the comparison is
`numpy.allclose` with its default tolerances, not exact equality. -/
theorem C2_counterexample :
    check_data_integrity [vecLayerA, vecLayerB] = Except.ok () ∧
    vecLayerA.geometry ≠ vecLayerB.geometry := by
  constructor
  · norm_num [check_data_integrity, integrityLoop, alignLoop, allclosePts,
      broadcastPairs, List.zip, List.zipWith, isclose, rabs, rtolDefault,
      atolDefault, vecLayerA, vecLayerB, DEFAULT_PROJECTION]
  · intro h
    have h1 : ((0 : ℚ), (0 : ℚ)) = ((1 / 1000000000 : ℚ), (0 : ℚ)) := by
      simpa [vecLayerA, vecLayerB] using h
    have h2 : (0 : ℚ) = 1 / 1000000000 := congrArg Prod.fst h1
    norm_num at h2

/-- C2 (amended): for two vector layers (default projection, nonempty
first geometry), `check_data_integrity` succeeds iff the two geometry
arrays are broadcast-compatible (equal lengths, or one of length 1),
every broadcast-compared coordinate agrees within numpy's default
tolerances (`|a - b| ≤ 1e-8 + 1e-5 * |b|`), and the second layer is
nonempty — a toleranced, broadcasting match, not an exact one. -/
theorem C2_vector_geometry_tolerance (A B : Layer)
    (hA : A.kind = LayerKind.vector) (hB : B.kind = LayerKind.vector)
    (hpA : A.projection = DEFAULT_PROJECTION)
    (hpB : B.projection = DEFAULT_PROJECTION)
    (hgA : 0 < A.geometry.length) :
    check_data_integrity [A, B] = Except.ok () ↔
      ((A.geometry.length = B.geometry.length ∨
          A.geometry.length = 1 ∨ B.geometry.length = 1) ∧
        (∀ p ∈ broadcastPairs A.geometry B.geometry,
          |p.1.1 - p.2.1| ≤ atolDefault + rtolDefault * |p.2.1| ∧
          |p.1.2 - p.2.2| ≤ atolDefault + rtolDefault * |p.2.2|) ∧
        0 < B.geometry.length) := by
  rw [← and_assoc, ← allclosePts_iff]
  obtain ⟨kA, pA, gtA, geomA, rwsA, clsA, nmA⟩ := A
  obtain ⟨kB, pB, gtB, geomB, rwsB, clsB, nmB⟩ := B
  dsimp only at hA hB hpA hpB hgA ⊢
  subst hA hB hpA hpB
  constructor
  · intro h
    cases hc : allclosePts rtolDefault atolDefault geomA geomB with
    | none =>
      exfalso
      simp [check_data_integrity, integrityLoop, hgA, hc] at h
    | some close =>
      cases close with
      | false =>
        exfalso
        simp [check_data_integrity, integrityLoop, hgA, hc] at h
      | true =>
        by_cases hgB : 0 < geomB.length
        · exact ⟨rfl, hgB⟩
        · exfalso
          simp [check_data_integrity, integrityLoop, hgA, hc, hgB] at h
  · rintro ⟨hc, hgB⟩
    simp [check_data_integrity, integrityLoop, alignLoop, hgA, hgB, hc]

/-- Witness for C2 (amended): the iff evaluated on a 1-point layer
against a 2-point layer — shapes `(1, 2)` vs `(2, 2)`, which numpy
broadcasts. -/
theorem C2_vector_geometry_tolerance_witness :
    check_data_integrity [vecLayerA, vecLayerC] = Except.ok () ↔
      ((vecLayerA.geometry.length = vecLayerC.geometry.length ∨
          vecLayerA.geometry.length = 1 ∨
          vecLayerC.geometry.length = 1) ∧
        (∀ p ∈ broadcastPairs vecLayerA.geometry vecLayerC.geometry,
          |p.1.1 - p.2.1| ≤ atolDefault + rtolDefault * |p.2.1| ∧
          |p.1.2 - p.2.2| ≤ atolDefault + rtolDefault * |p.2.2|) ∧
        0 < vecLayerC.geometry.length) :=
  C2_vector_geometry_tolerance vecLayerA vecLayerC rfl rfl rfl rfl
    (by norm_num [vecLayerA])

/-! ## C7 -/

/-- `allclose` holds exactly when the arrays have equal length and every
component pair is within `atol + rtol * |reference|`. -/
theorem allclose_iff (rtol atol : ℚ) (xs ys : List ℚ) :
    allclose rtol atol xs ys = true ↔
      (xs.length = ys.length ∧
        ∀ p ∈ List.zip xs ys, |p.1 - p.2| ≤ atol + rtol * |p.2|) := by
  unfold allclose isclose
  rw [Bool.and_eq_true, List.all_eq_true]
  simp [rabs_eq_abs]

/-- The raster row/column alignment phase never raises the
geotransform-mismatch error. -/
theorem alignLoop_ne_gtMsg (M N : ℕ) (ls : List Layer) :
    alignLoop M N ls ≠ Except.error geotransformMsg := by
  induction ls with
  | nil => simp [alignLoop]
  | cons l rest ih =>
    unfold alignLoop
    cases hk : l.kind
    · split_ifs
      · exact ih
      · simp [colsMsg, geotransformMsg]
      · simp [rowsMsg, geotransformMsg]
    · exact ih

/-- C7 counterexample: the origin-x components of `rasTinyA` and
`rasTinyB` differ by 100% in relative terms — far beyond the claimed
10% relative tolerance — yet `check_data_integrity` passes, because
`numpy.allclose` also grants the absolute `atol = 1e-8` slack. -/
theorem C7_counterexample :
    check_data_integrity [rasTinyA, rasTinyB] = Except.ok () ∧
    |(2 / 1000000000 : ℚ) - 1 / 1000000000| >
      (1 / 10) * |(1 / 1000000000 : ℚ)| ∧
    rasTinyA.geotransform = [2 / 1000000000, 1, 0, 0, 0, -1] ∧
    rasTinyB.geotransform = [1 / 1000000000, 1, 0, 0, 0, -1] := by
  refine ⟨?_, ?_, rfl, rfl⟩
  · norm_num [check_data_integrity, integrityLoop, alignLoop, allclose,
      isclose, rabs, atolDefault, rasTinyA, rasTinyB, DEFAULT_PROJECTION,
      SYS_MAXINT]
  · rw [abs_of_pos (by norm_num), abs_of_pos (by norm_num)]
    norm_num

/-- C7 (amended): for two raster layers (default projection),
`check_data_integrity` raises the geotransform-mismatch error iff
`numpy.allclose` with `rtol = 0.1` and default `atol = 1e-8` fails on
the two geotransforms — i.e. some component differs by more than
`1e-8 + 0.1 * |value|`; in particular unit pixel widths differing by 15%
fail and by 5% pass. -/
theorem C7_geotransform_tolerance :
    (∀ A B : Layer,
      A.kind = LayerKind.raster → B.kind = LayerKind.raster →
      A.projection = DEFAULT_PROJECTION →
      B.projection = DEFAULT_PROJECTION →
      (check_data_integrity [A, B] = Except.error geotransformMsg ↔
        ¬ allclose (1 / 10) atolDefault A.geotransform B.geotransform
            = true)) ∧
    check_data_integrity [rasRef, rasOff15] =
      Except.error geotransformMsg ∧
    check_data_integrity [rasRef, rasOff05] = Except.ok () := by
  refine ⟨?_, ?_, ?_⟩
  · intro A B hA hB hpA hpB
    obtain ⟨kA, pA, gtA, geomA, rwsA, clsA, nmA⟩ := A
    obtain ⟨kB, pB, gtB, geomB, rwsB, clsB, nmB⟩ := B
    dsimp only at hA hB hpA hpB ⊢
    subst hA hB hpA hpB
    simp only [one_div]
    by_cases hc : allclose 10⁻¹ atolDefault gtA gtB = true
    · have hok : integrityLoop none none
          [⟨LayerKind.raster, DEFAULT_PROJECTION, gtA, geomA, rwsA, clsA,
            nmA⟩,
           ⟨LayerKind.raster, DEFAULT_PROJECTION, gtB, geomB, rwsB, clsB,
            nmB⟩] = Except.ok () := by
        simp [integrityLoop, one_div, hc]
      simp only [check_data_integrity, hok]
      constructor
      · intro h
        exact absurd h (alignLoop_ne_gtMsg _ _ _)
      · intro h
        exact absurd hc h
    · rw [Bool.not_eq_true] at hc
      have herr : integrityLoop none none
          [⟨LayerKind.raster, DEFAULT_PROJECTION, gtA, geomA, rwsA, clsA,
            nmA⟩,
           ⟨LayerKind.raster, DEFAULT_PROJECTION, gtB, geomB, rwsB, clsB,
            nmB⟩] = Except.error geotransformMsg := by
        simp [integrityLoop, one_div, hc]
      simp only [check_data_integrity, herr]
      simp [hc]
  · norm_num [check_data_integrity, integrityLoop, alignLoop, allclose,
      isclose, rabs, atolDefault, rasRef, rasOff15, DEFAULT_PROJECTION,
      SYS_MAXINT]
  · norm_num [check_data_integrity, integrityLoop, alignLoop, allclose,
      isclose, rabs, atolDefault, rasRef, rasOff05, DEFAULT_PROJECTION,
      SYS_MAXINT]

/-- Witness for C7 (amended): the iff instantiated at the two concrete
15%-apart raster layers. -/
theorem C7_geotransform_tolerance_witness :
    check_data_integrity [rasRef, rasOff15] =
        Except.error geotransformMsg ↔
      ¬ allclose (1 / 10) atolDefault rasRef.geotransform
          rasOff15.geotransform = true :=
  C7_geotransform_tolerance.1 rasRef rasOff15 rfl rfl rfl rfl

/-! ## C3 -/

/-- C3 counterexample: a plugin named `"TestPlugin"` whose `run` raises
`"boom"` makes `calculate_impact` fail with exactly `"boom"` — the
surfaced error does not contain the plugin's name anywhere, so no
wrapping with the plugin's identity happens in `calculate_impact`. -/
theorem C3_counterexample :
    calculate_impact [] failingPlugin = Except.error "boom" ∧
    ¬ List.IsInfix "TestPlugin".data "boom".data := by
  constructor
  · rfl
  · decide

/-- C3 (amended): when the data-integrity check passes and the plugin's
`run` (or, after a successful `run`, its `generate_style`) raises, the
operation fails and the underlying error reaches the caller verbatim —
neither swallowed nor retried, but also not wrapped with the plugin's
name: `calculate_impact` has no handler at all. -/
theorem C3_plugin_error_propagation (layers : List Layer) (p : Plugin)
    (msg : String) (hok : check_data_integrity layers = Except.ok ()) :
    (p.run layers = Except.error msg →
      calculate_impact layers p = Except.error msg) ∧
    (∀ F, p.run layers = Except.ok F →
      p.generate_style F = Except.error msg →
      calculate_impact layers p = Except.error msg) := by
  constructor
  · intro hrun
    simp [calculate_impact, hok, hrun]
  · intro F hrun hstyle
    simp [calculate_impact, hok, hrun, hstyle]

/-- Witness for C3 (amended) at the empty layer list and
`failingPlugin`. -/
theorem C3_plugin_error_propagation_witness :
    check_data_integrity ([] : List Layer) = Except.ok () ∧
    failingPlugin.run [] = Except.error "boom" ∧
    calculate_impact [] failingPlugin = Except.error "boom" :=
  ⟨rfl, rfl,
   (C3_plugin_error_propagation [] failingPlugin "boom" rfl).1 rfl⟩

/-! ## Dictionary lemmas and C10 -/

/-- Looking up the key just inserted yields the inserted value. -/
theorem dictGet_insert_self {V : Type} (d : List (String × V))
    (k : String) (v : V) : dictGet (dictInsert d k v) k = some v := by
  induction d with
  | nil => simp [dictInsert, dictGet]
  | cons p rest ih =>
    by_cases h : p.1 = k
    · simp [dictInsert, h, dictGet]
    · simp [dictInsert, h, dictGet, ih]

/-- Inserting under one key does not change lookups of another. -/
theorem dictGet_insert_ne {V : Type} (d : List (String × V))
    (j k : String) (v : V) (hjk : j ≠ k) :
    dictGet (dictInsert d j v) k = dictGet d k := by
  induction d with
  | nil => simp [dictInsert, dictGet, hjk]
  | cons p rest ih =>
    by_cases h : p.1 = j
    · simp [dictInsert, h, dictGet, hjk]
    · simp [dictInsert, h, dictGet, ih]

/-- Folding in entries whose keys avoid `k` leaves the lookup of `k`
unchanged. -/
theorem dictGet_fold_not_mem {V : Type} (attrs : List (String × V)) :
    ∀ d : List (String × V), ∀ k, k ∉ attrs.map Prod.fst →
      dictGet (attrs.foldl (fun d kv => dictInsert d kv.1 kv.2) d) k =
        dictGet d k := by
  induction attrs with
  | nil => intro d k _; rfl
  | cons a rest ih =>
    intro d k hk
    rw [List.map_cons] at hk
    have h1 : a.1 ≠ k := fun he => hk (he ▸ List.mem_cons_self _ _)
    have h2 : k ∉ rest.map Prod.fst :=
      fun hm => hk (List.mem_cons_of_mem _ hm)
    rw [List.foldl_cons, ih (dictInsert d a.1 a.2) k h2,
        dictGet_insert_ne d a.1 k a.2 h1]

/-- With pairwise-distinct keys, folding the entries in makes every entry
retrievable. -/
theorem dictGet_fold_mem {V : Type} (attrs : List (String × V)) :
    ∀ d : List (String × V), (attrs.map Prod.fst).Nodup →
      ∀ k v, (k, v) ∈ attrs →
        dictGet (attrs.foldl (fun d kv => dictInsert d kv.1 kv.2) d) k =
          some v := by
  induction attrs with
  | nil => intro d _ k v h; cases h
  | cons a rest ih =>
    intro d hnd k v hmem
    rw [List.map_cons, List.nodup_cons] at hnd
    rw [List.foldl_cons]
    rcases List.mem_cons.mp hmem with heq | hmem2
    · obtain rfl : a = (k, v) := heq.symm
      dsimp only at hnd
      rw [dictGet_fold_not_mem rest (dictInsert d k v) k hnd.1]
      exact dictGet_insert_self d k v
    · exact ih (dictInsert d a.1 a.2) hnd.2 k v hmem2

/-- C10: `result_dict` is built by inserting the computed damage value
(under the plugin's target field) and the raw hazard value (under
`'MMI'`) first, then copying every original exposure attribute over it.
Hence every original attribute is present unchanged in the output — in
particular an original attribute named `'MMI'` (or named like the target
field) silently replaces the computed value — and the computed entries
survive only for keys no original attribute uses. -/
theorem C10_attribute_carry_forward {V : Type} (target : String)
    (computed mmi : V) (attrs : List (String × V))
    (hnd : (attrs.map Prod.fst).Nodup) :
    (∀ k v, (k, v) ∈ attrs →
      dictGet (buildResultDict target computed mmi attrs) k = some v) ∧
    ("MMI" ∉ attrs.map Prod.fst →
      dictGet (buildResultDict target computed mmi attrs) "MMI" =
        some mmi) ∧
    (target ∉ attrs.map Prod.fst → target ≠ "MMI" →
      dictGet (buildResultDict target computed mmi attrs) target =
        some computed) := by
  unfold buildResultDict
  refine ⟨?_, ?_, ?_⟩
  · intro k v hm
    exact dictGet_fold_mem attrs _ hnd k v hm
  · intro hmm
    rw [dictGet_fold_not_mem attrs _ "MMI" hmm]
    exact dictGet_insert_self _ "MMI" mmi
  · intro ht hne
    rw [dictGet_fold_not_mem attrs _ target ht,
        dictGet_insert_ne _ "MMI" target mmi (Ne.symm hne)]
    exact dictGet_insert_self [] target computed

/-- Witness for C10: with original attributes
`[("MMI", 99), ("NAME", 5)]` the original `MMI` value 99 overrides the
computed hazard value 13, and `NAME` is carried forward unchanged. -/
theorem C10_attribute_carry_forward_witness :
    dictGet (buildResultDict target_field 2 13 [("MMI", 99), ("NAME", 5)])
        "MMI" = some 99 ∧
    dictGet (buildResultDict target_field 2 13 [("MMI", 99), ("NAME", 5)])
        "NAME" = some 5 :=
  ⟨(C10_attribute_carry_forward target_field 2 13
      [("MMI", 99), ("NAME", 5)] (by simp)).1 "MMI" 99 (by simp),
   (C10_attribute_carry_forward target_field 2 13
      [("MMI", 99), ("NAME", 5)] (by simp)).1 "NAME" 5 (by simp)⟩

end SafeGeonode
